import Mathlib

/-!
Verification of the sludge-distribution 3D visualization core
(`app_3D_sludge.py`): scattered-data interpolation onto a circular tank
footprint with out-of-bounds masking, plus scene composition (surface
color ramp, axis ranges, camera, and point labels).

Coordinates and heights are modelled as rationals; an undefined grid cell
(NaN in the source) is `none : Option ℚ`.  The scattered-data solver
`scipy.interpolate.griddata` is external to the repository, so its
pointwise numerical output on non-degenerate input is an abstract
parameter `f : ℚ → ℚ → Option ℚ` (`none` = outside the samples' convex
hull), while its failure condition on degenerate input is modelled from
the spec.
-/

/-- A measured sample point: location `(x, y)` and height `z`.
Source: columns X, Y, Z of the input table (`app_3D_sludge.py` lines 54-56). -/
structure SamplePoint where
  x : ℚ
  y : ℚ
  z : ℚ
deriving DecidableEq, Repr

/-- Tank geometry: circular footprint radius and vertical render range.
Source: sidebar inputs `radius`, `z_bot`, `z_top` (lines 24, 28, 29). -/
structure TankGeometry where
  radius : ℚ
  z_bot : ℚ
  z_top : ℚ
deriving DecidableEq, Repr

/-- A height grid: rows of cells, each cell either a height or undefined
(`np.nan` in the source). -/
abbrev HeightGrid := List (List (Option ℚ))

/-- `np.linspace a b n`: `n` evenly spaced values from `a` to `b`.
For `n = 1` numpy returns `[a]`; the formula below reproduces that since
`(b - a) * 0 / 0 = 0` in ℚ.  Source: lines 63-64. -/
def linspace (a b : ℚ) (n : ℕ) : List ℚ :=
  (List.range n).map (fun (i : ℕ) => a + (b - a) * (i : ℚ) / ((n - 1 : ℕ) : ℚ))

/-- The mesh x-coordinates: `np.linspace(-radius, radius, grid_points)`
(line 63). -/
def mesh_xs (geo : TankGeometry) (grid_points : ℕ) : List ℚ :=
  linspace (-geo.radius) geo.radius grid_points

/-- The mesh y-coordinates: `np.linspace(-radius, radius, grid_points)`
(line 64). -/
def mesh_ys (geo : TankGeometry) (grid_points : ℕ) : List ℚ :=
  linspace (-geo.radius) geo.radius grid_points

/-- The `(x, y)` pairs of the mesh, row-major as `np.meshgrid` lays them
out: cell `(i, j)` has `grid_x[i][j] = xs[j]`, `grid_y[i][j] = ys[i]`
(lines 62-65). -/
def mesh_grid (geo : TankGeometry) (grid_points : ℕ) : List (List (ℚ × ℚ)) :=
  (mesh_ys geo grid_points).map (fun y =>
    (mesh_xs geo grid_points).map (fun x => (x, y)))

/-- The distinct `(x, y)` locations of a sample sequence. -/
def xy_locations (samples : List SamplePoint) : List (ℚ × ℚ) :=
  (samples.map (fun p => (p.x, p.y))).dedup

/-- Whether every triple of the given planar points is collinear
(zero cross product). -/
def all_collinear (ps : List (ℚ × ℚ)) : Bool :=
  ps.all (fun p => ps.all (fun q => ps.all (fun r =>
    decide ((q.1 - p.1) * (r.2 - p.2) - (q.2 - p.2) * (r.1 - p.1) = 0))))

/-- Degenerate sample configuration: fewer than 4 distinct sample
locations, or all locations collinear — i.e. no 4 distinct non-collinear
points exist to support cubic scattered-data interpolation. -/
def degenerate (samples : List SamplePoint) : Bool :=
  (xy_locations samples).length < 4 || all_collinear (xy_locations samples)

/-- The error message reported when interpolation fails (line 70). -/
def interpolationFailureMsg : String := "interpolation failed"

/-- Modelled from the spec: `scipy.interpolate.griddata` with
`method='cubic'` is third-party code absent from the repository.  Per the
spec, on degenerate input (fewer than 4 distinct non-collinear samples) it
raises — modelled as `Except.error` — and otherwise produces a pointwise
height estimate, abstracted as the oracle `f` (with `f x y = none` for
mesh points outside the samples' convex hull).  Source call site: line 68. -/
def griddata (samples : List SamplePoint) (f : ℚ → ℚ → Option ℚ) :
    Except String (ℚ → ℚ → Option ℚ) :=
  if degenerate samples then Except.error interpolationFailureMsg
  else Except.ok f

/-- The Interpolation Engine (lines 62-73): build the mesh, run the
scattered-data solver inside try/except, and on success apply the circular
mask `grid_z[grid_x**2 + grid_y**2 > radius**2] = np.nan`; on failure,
no grid is produced and the error is surfaced. -/
def interpolate (samples : List SamplePoint) (geo : TankGeometry)
    (grid_points : ℕ) (f : ℚ → ℚ → Option ℚ) : Except String HeightGrid :=
  match griddata samples f with
  | Except.error e => Except.error e
  | Except.ok g =>
    Except.ok ((mesh_ys geo grid_points).map (fun y =>
      (mesh_xs geo grid_points).map (fun x =>
        if x ^ 2 + y ^ 2 > geo.radius ^ 2 then none else g x y)))

/-- Cell `(i, j)` of a height grid (row `i`, column `j`). -/
def cellAt (g : HeightGrid) (i j : ℕ) : Option ℚ :=
  (g.getD i []).getD j none

/-- The `j`-th coordinate of a mesh axis. -/
def coordAt (xs : List ℚ) (j : ℕ) : ℚ := xs.getD j 0

/-- A floating text label anchored to a 3D point.  Source: the
`go.Scatter3d(..., mode='text', ...)` traces added at lines 109-116. -/
structure TextLabel where
  x : ℚ
  y : ℚ
  z : ℚ
  text : String
deriving DecidableEq, Repr

/-- The labels the Scene Composer emits (lines 106-116): when
`show_labels` is on, one text trace per sample with
`x[idx]**2 + y[idx]**2 <= radius**2`, positioned at
`(x[idx], y[idx], z[idx] + 0.2)` with text `f"A{idx+1}"`, where `idx`
runs over `range(len(x))`. -/
def scene_labels (samples : List SamplePoint) (radius : ℚ)
    (show_labels : Bool) : List TextLabel :=
  if show_labels then
    samples.enum.filterMap (fun ip =>
      if ip.2.x ^ 2 + ip.2.y ^ 2 ≤ radius ^ 2 then
        some ⟨ip.2.x, ip.2.y, ip.2.z + 1/5, "A" ++ toString (ip.1 + 1)⟩
      else none)
  else []

/-- The renderable scene description: surface grid with its color ramp,
axis ranges, camera eye, title, and the text labels. -/
structure SceneDescription where
  surface_z : HeightGrid
  colorscale : List (ℚ × String)
  xaxis_range : ℚ × ℚ
  yaxis_range : ℚ × ℚ
  zaxis_range : ℚ × ℚ
  camera_eye : ℚ × ℚ × ℚ
  title : String
  labels : List TextLabel
deriving DecidableEq, Repr

/-- The Scene Composer (lines 76-116): surface with the fixed 4-stop
colorscale `[[0, darkblue], [0.2, deepskyblue], [0.8, yellow], [1, red]]`,
x and y axis ranges `[radius, -radius]`, z axis range `[z_bot, z_top]`,
camera eye `(1.4, -1.4, 0.7)`, and the label traces.  The sidebar values
`elev` and `azim` (lines 26-27) are in scope but never referenced by the
figure construction. -/
def composeScene (grid_z : HeightGrid) (samples : List SamplePoint)
    (geo : TankGeometry) (show_labels : Bool) (tank_name : String)
    (elev azim : ℚ) : SceneDescription :=
  { surface_z := grid_z
    colorscale := [(0, "darkblue"), (1/5, "deepskyblue"), (4/5, "yellow"), (1, "red")]
    xaxis_range := (geo.radius, -geo.radius)
    yaxis_range := (geo.radius, -geo.radius)
    zaxis_range := (geo.z_bot, geo.z_top)
    camera_eye := (7/5, -7/5, 7/10)
    title := tank_name
    labels := scene_labels samples geo.radius show_labels }

/-! ## Indexing lemmas -/

theorem linspace_length (a b : ℚ) (n : ℕ) : (linspace a b n).length = n := by
  rw [linspace, List.length_map, List.length_range]

theorem linspace_getD (a b : ℚ) (n j : ℕ) (h : j < n) :
    (linspace a b n).getD j 0 = a + (b - a) * (j : ℚ) / ((n - 1 : ℕ) : ℚ) := by
  rw [linspace, List.getD_eq_getElem?_getD, List.getElem?_map,
    List.getElem?_range h]
  rfl

theorem cellAt_build (xs ys : List ℚ) (F : ℚ → ℚ → Option ℚ) (i j : ℕ)
    (hi : i < ys.length) (hj : j < xs.length) :
    cellAt (ys.map (fun y => xs.map (fun x => F x y))) i j
      = F (xs.getD j 0) (ys.getD i 0) := by
  unfold cellAt
  have h1 : (ys.map (fun y => xs.map (fun x => F x y))).getD i []
      = xs.map (fun x => F x (ys.getD i 0)) := by
    rw [List.getD_eq_getElem?_getD, List.getElem?_map,
      List.getElem?_eq_getElem hi]
    simp [List.getD_eq_getElem?_getD, List.getElem?_eq_getElem hi]
  rw [h1, List.getD_eq_getElem?_getD, List.getElem?_map,
    List.getElem?_eq_getElem hj]
  simp [List.getD_eq_getElem?_getD, List.getElem?_eq_getElem hj]

/-! ## Concrete fixtures -/

/-- Four distinct non-collinear samples, radius-1 tank, 3×3 grid. -/
def samples₀ : List SamplePoint := [⟨0,0,0⟩, ⟨1,0,0⟩, ⟨0,1,0⟩, ⟨1,1,0⟩]

def geo₀ : TankGeometry := ⟨1, 0, 1⟩

/-- A constant interpolation oracle. -/
def f₀ : ℚ → ℚ → Option ℚ := fun _ _ => some 5

/-- The grid `interpolate samples₀ geo₀ 3 f₀` produces: corners are
outside the unit circle and masked, the rest keep the oracle value. -/
def g₀ : HeightGrid :=
  [[none, some 5, none], [some 5, some 5, some 5], [none, some 5, none]]

/-! ### Evaluation lemmas for the fixtures -/

theorem xy_locations_samples₀_eval :
    xy_locations samples₀ = [(0,0),(1,0),(0,1),(1,1)] := by
  show ([((0:ℚ),(0:ℚ)),(1,0),(0,1),(1,1)]).dedup = _
  rw [List.dedup_cons_of_not_mem (by norm_num [Prod.ext_iff]),
      List.dedup_cons_of_not_mem (by norm_num [Prod.ext_iff]),
      List.dedup_cons_of_not_mem (by norm_num [Prod.ext_iff]),
      List.dedup_cons_of_not_mem (by simp), List.dedup_nil]

theorem all_collinear_samples₀_eval :
    all_collinear [(0,0),(1,0),(0,1),(1,1)] = false := by
  simp only [all_collinear, List.all_eq_false, Bool.not_eq_true,
    decide_eq_false_iff_not]
  exact ⟨(0,0), by simp, (1,0), by simp, (0,1), by simp, by norm_num⟩

theorem degenerate_samples₀_eval : degenerate samples₀ = false := by
  rw [degenerate, xy_locations_samples₀_eval, all_collinear_samples₀_eval]
  norm_num

theorem griddata_samples₀_eval (f : ℚ → ℚ → Option ℚ) :
    griddata samples₀ f = Except.ok f := by
  rw [griddata, degenerate_samples₀_eval]
  rfl

theorem mesh_xs_eval : mesh_xs geo₀ 3 = [-1, 0, 1] := by
  norm_num [mesh_xs, linspace, List.range_succ, geo₀]

theorem mesh_ys_eval : mesh_ys geo₀ 3 = [-1, 0, 1] := by
  norm_num [mesh_ys, linspace, List.range_succ, geo₀]

theorem interpolate_samples₀_eval :
    interpolate samples₀ geo₀ 3 f₀ = Except.ok g₀ := by
  unfold interpolate
  rw [griddata_samples₀_eval]
  refine congrArg Except.ok ?_
  rw [mesh_ys_eval, mesh_xs_eval]
  norm_num [geo₀, f₀, g₀]

/-! ## Claims -/

/-- C1: for every radius `r > 0`, every grid resolution, every oracle and
every sample set for which interpolation succeeds, every cell of the
returned grid whose mesh coordinate `(x, y)` satisfies `x² + y² > r²` is
undefined, regardless of the value the interpolation step produced there. -/
theorem interpolate_masks_outside_circle
    (samples : List SamplePoint) (geo : TankGeometry) (grid_points : ℕ)
    (f : ℚ → ℚ → Option ℚ) (g : HeightGrid)
    (hr : 0 < geo.radius)
    (hok : interpolate samples geo grid_points f = Except.ok g)
    (i j : ℕ) (hi : i < grid_points) (hj : j < grid_points)
    (hout : coordAt (mesh_xs geo grid_points) j ^ 2
        + coordAt (mesh_ys geo grid_points) i ^ 2 > geo.radius ^ 2) :
    cellAt g i j = none := by
  unfold interpolate at hok
  cases hgd : griddata samples f with
  | error e => rw [hgd] at hok; cases hok
  | ok f1 =>
    rw [hgd] at hok
    injection hok with hok
    subst hok
    rw [cellAt_build _ _ (fun x y => if x ^ 2 + y ^ 2 > geo.radius ^ 2 then none else f1 x y)
      i j (by simpa [mesh_ys, linspace_length] using hi)
      (by simpa [mesh_xs, linspace_length] using hj)]
    exact if_pos hout

/-- Witness for C1: on `samples₀` over the unit tank with a 3×3 grid and a
constant oracle, the corner cell `(0,0)` at mesh coordinate `(-1,-1)`
(with `(-1)² + (-1)² = 2 > 1`) is undefined. -/
theorem interpolate_masks_outside_circle_witness :
    cellAt g₀ 0 0 = none :=
  interpolate_masks_outside_circle samples₀ geo₀ 3 f₀ g₀
    (by norm_num [geo₀]) interpolate_samples₀_eval 0 0 (by norm_num)
    (by norm_num)
    (by simp only [coordAt, mesh_xs_eval, mesh_ys_eval]; norm_num [geo₀])

/-- C9: the masking step is a frame property — every cell whose mesh
coordinate `(x, y)` satisfies `x² + y² ≤ radius²` keeps exactly the value
the interpolation step produced for it (including `none` for points
outside the samples' convex hull). -/
theorem mask_preserves_inside_circle
    (samples : List SamplePoint) (geo : TankGeometry) (grid_points : ℕ)
    (f : ℚ → ℚ → Option ℚ) (g : HeightGrid)
    (hok : interpolate samples geo grid_points f = Except.ok g)
    (i j : ℕ) (hi : i < grid_points) (hj : j < grid_points)
    (hin : coordAt (mesh_xs geo grid_points) j ^ 2
        + coordAt (mesh_ys geo grid_points) i ^ 2 ≤ geo.radius ^ 2) :
    cellAt g i j = f (coordAt (mesh_xs geo grid_points) j)
        (coordAt (mesh_ys geo grid_points) i) := by
  unfold interpolate at hok
  cases hgd : griddata samples f with
  | error e => rw [hgd] at hok; cases hok
  | ok f1 =>
    have hf1 : f1 = f := by
      unfold griddata at hgd
      cases hd : degenerate samples with
      | true => rw [hd] at hgd; simp at hgd
      | false => rw [hd] at hgd; simp at hgd; exact hgd.symm
    rw [hgd] at hok
    injection hok with hok
    subst hok
    rw [cellAt_build _ _ (fun x y => if x ^ 2 + y ^ 2 > geo.radius ^ 2 then none else f1 x y)
      i j (by simpa [mesh_ys, linspace_length] using hi)
      (by simpa [mesh_xs, linspace_length] using hj), hf1]
    exact if_neg (not_lt.mpr hin)

/-- Witness for C9: on `samples₀` over the unit tank with a 3×3 grid, the
center cell `(1,1)` at mesh coordinate `(0,0)` (inside the circle) holds
exactly the oracle's value. -/
theorem mask_preserves_inside_circle_witness :
    cellAt g₀ 1 1 = f₀ (coordAt (mesh_xs geo₀ 3) 1) (coordAt (mesh_ys geo₀ 3) 1) :=
  mask_preserves_inside_circle samples₀ geo₀ 3 f₀ g₀
    interpolate_samples₀_eval 1 1 (by norm_num) (by norm_num)
    (by simp only [coordAt, mesh_xs_eval, mesh_ys_eval]; norm_num [geo₀])

/-- C2: whenever the scattered-data solver fails, the engine surfaces the
failure to the caller and returns no grid at all, so a computation error
is distinguishable from a successfully computed all-undefined grid. -/
theorem interpolate_reports_failure
    (samples : List SamplePoint) (geo : TankGeometry) (grid_points : ℕ)
    (f : ℚ → ℚ → Option ℚ) (e : String)
    (hfail : griddata samples f = Except.error e) :
    interpolate samples geo grid_points f = Except.error e
      ∧ ∀ g : HeightGrid, interpolate samples geo grid_points f ≠ Except.ok g := by
  have h : interpolate samples geo grid_points f = Except.error e := by
    unfold interpolate; rw [hfail]
  exact ⟨h, fun g hg => by rw [h] at hg; cases hg⟩

/-- Witness for C2: on the empty sample list the solver fails and the
engine returns the error, not a grid. -/
theorem interpolate_reports_failure_witness :
    interpolate [] geo₀ 3 f₀ = Except.error interpolationFailureMsg :=
  (interpolate_reports_failure [] geo₀ 3 f₀ interpolationFailureMsg
    (by rw [griddata]; norm_num [degenerate, xy_locations])).1

/-- Three distinct but fewer than four sample locations. -/
def samples₃ : List SamplePoint := [⟨0,0,1⟩, ⟨3,4,2⟩, ⟨5,5,3⟩]

theorem degenerate_samples₃_eval : degenerate samples₃ = true := by
  rw [degenerate]
  have h : xy_locations samples₃ = [(0,0),(3,4),(5,5)] := by
    show ([((0:ℚ),(0:ℚ)),(3,4),(5,5)]).dedup = _
    rw [List.dedup_cons_of_not_mem (by norm_num [Prod.ext_iff]),
        List.dedup_cons_of_not_mem (by norm_num [Prod.ext_iff]),
        List.dedup_cons_of_not_mem (by simp), List.dedup_nil]
  rw [h]
  norm_num

/-- C3: on a sample sequence with fewer than 4 distinct non-collinear
points, interpolation raises the failure (the failure branch is taken)
rather than returning a grid. -/
theorem degenerate_samples_raise
    (samples : List SamplePoint) (geo : TankGeometry) (grid_points : ℕ)
    (f : ℚ → ℚ → Option ℚ)
    (hdeg : degenerate samples = true) :
    interpolate samples geo grid_points f = Except.error interpolationFailureMsg
      ∧ ∀ g : HeightGrid, interpolate samples geo grid_points f ≠ Except.ok g := by
  have hgd : griddata samples f = Except.error interpolationFailureMsg := by
    rw [griddata, hdeg]
    rfl
  have h : interpolate samples geo grid_points f
      = Except.error interpolationFailureMsg := by
    unfold interpolate; rw [hgd]
  exact ⟨h, fun g hg => by rw [h] at hg; cases hg⟩

/-- Witness for C3: three distinct sample locations (fewer than four) make
the failure branch fire. -/
theorem degenerate_samples_raise_witness :
    interpolate samples₃ geo₀ 5 f₀ = Except.error interpolationFailureMsg :=
  (degenerate_samples_raise samples₃ geo₀ 5 f₀ degenerate_samples₃_eval).1

/-! ## Label machinery -/

/-- A sample lies inside the tank footprint. -/
def inFootprint (radius : ℚ) (p : SamplePoint) : Bool :=
  decide (p.x ^ 2 + p.y ^ 2 ≤ radius ^ 2)

/-- The annotation generated for the enumerated sample `ip` (0-based
index `ip.1`). -/
def mkLabel (ip : ℕ × SamplePoint) : TextLabel :=
  ⟨ip.2.x, ip.2.y, ip.2.z + 1/5, "A" ++ toString (ip.1 + 1)⟩

theorem filterMap_label_eq (l : List (ℕ × SamplePoint)) (radius : ℚ) :
    (l.filterMap (fun ip =>
      if ip.2.x ^ 2 + ip.2.y ^ 2 ≤ radius ^ 2 then
        some (⟨ip.2.x, ip.2.y, ip.2.z + 1/5, "A" ++ toString (ip.1 + 1)⟩ : TextLabel)
      else none))
    = (l.filter (fun ip => inFootprint radius ip.2)).map mkLabel := by
  induction l with
  | nil => rfl
  | cons hd tl ih =>
    rw [List.filterMap_cons, List.filter_cons]
    by_cases h : hd.2.x ^ 2 + hd.2.y ^ 2 ≤ radius ^ 2
    · rw [if_pos h]
      have hb : inFootprint radius hd.2 = true := decide_eq_true h
      rw [hb, if_pos rfl, List.map_cons, ih]
      rfl
    · rw [if_neg h]
      have hb : inFootprint radius hd.2 = false := decide_eq_false h
      rw [hb, if_neg (by simp), ih]

theorem scene_labels_true_eq (samples : List SamplePoint) (radius : ℚ) :
    scene_labels samples radius true
      = (samples.enum.filter (fun ip => inFootprint radius ip.2)).map mkLabel := by
  rw [scene_labels, if_pos rfl, filterMap_label_eq]

theorem scene_labels_example_eval :
    scene_labels [⟨0,0,1⟩, ⟨100,100,1⟩] 10 true = [⟨0, 0, 6/5, "A1"⟩] := by
  rw [scene_labels_true_eq]
  have henum : ([⟨0,0,1⟩, ⟨100,100,1⟩] : List SamplePoint).enum
      = [(0, ⟨0,0,1⟩), (1, ⟨100,100,1⟩)] := rfl
  rw [henum]
  norm_num [List.filter_cons, inFootprint, mkLabel, TextLabel.mk.injEq]
  rfl

/-- C4: with the label policy on, the scene carries exactly one annotation
per in-footprint sample (in input order, positioned at
`(x, y, z + 1/5)`), none for out-of-footprint samples; in particular
samples `[(0,0,1), (100,100,1)]` with radius 10 yield exactly one
annotation, for the first point. -/
theorem compose_scene_label_filtering :
    (∀ (grid_z : HeightGrid) (samples : List SamplePoint)
        (geo : TankGeometry) (tank_name : String) (elev azim : ℚ),
      (composeScene grid_z samples geo true tank_name elev azim).labels
        = (samples.enum.filter (fun ip => inFootprint geo.radius ip.2)).map mkLabel)
    ∧ (composeScene [] [⟨0,0,1⟩, ⟨100,100,1⟩] ⟨10, 0, 1⟩ true "tank" 0 0).labels
        = [⟨0, 0, 6/5, "A1"⟩] := by
  constructor
  · intro grid_z samples geo tank_name elev azim
    exact scene_labels_true_eq samples geo.radius
  · exact scene_labels_example_eval

/-- C5, counterexample: the code labels the FIRST sample `"A1"` (0-based
`idx` plus one), not `"A2"` as the claim's 1-based reading of `index`
demands. -/
theorem label_index_not_one_based_cex :
    (scene_labels [⟨0,0,1⟩] 10 true).map TextLabel.text = ["A1"]
      ∧ ("A1" : String) ≠ "A2" := by
  constructor
  · rw [scene_labels_true_eq]
    have henum : ([⟨0,0,1⟩] : List SamplePoint).enum = [(0, ⟨0,0,1⟩)] := rfl
    rw [henum]
    norm_num [List.filter_cons, inFootprint, mkLabel]
    rfl
  · decide

/-- C5, amended: every in-footprint sample's annotation text is
`"A" ++ toString (idx + 1)` where `idx` is the 0-based position of the
sample in input order — equivalently, the label number is the 1-based
position, so the first sample is labelled `"A1"`. -/
theorem label_text_zero_based (samples : List SamplePoint) (radius : ℚ) :
    (scene_labels samples radius true).map TextLabel.text
      = (samples.enum.filter (fun ip => inFootprint radius ip.2)).map
          (fun ip => "A" ++ toString (ip.1 + 1)) := by
  rw [scene_labels_true_eq, List.map_map]
  rfl

/-- C6, counterexample: with radius `1 > 0` and resolution `1`, the mesh
axis is `[-1]` — the value `+radius = 1` is not among the x values, so the
axis does not span `[-radius, radius]` inclusive at resolution 1. -/
theorem mesh_res_one_cex :
    mesh_xs ⟨1, 0, 1⟩ 1 = [-1] ∧ (1 : ℚ) ∉ mesh_xs ⟨1, 0, 1⟩ 1
      ∧ (0 : ℚ) < 1 := by
  have h : mesh_xs ⟨1, 0, 1⟩ 1 = [-1] := by
    norm_num [mesh_xs, linspace, List.range_succ]
  exact ⟨h, by rw [h]; norm_num, by norm_num⟩

/-- C6, amended: the engine builds a `resolution × resolution` grid of
`(x, y)` pairs from `resolution` evenly spaced x values and `resolution`
evenly spaced y values; the first value is `-radius`, consecutive values
differ by `2·radius/(resolution-1)`, and for `resolution ≥ 2` the last
value is `radius` (so the values span `[-radius, radius]` inclusive);
`resolution = 1` yields a 1×1 grid whose single axis value is `-radius`
(the left endpoint only, not both). -/
theorem mesh_build_spec (geo : TankGeometry) (grid_points : ℕ)
    (h1 : 1 ≤ grid_points) :
    (mesh_xs geo grid_points).length = grid_points
    ∧ (mesh_ys geo grid_points).length = grid_points
    ∧ (mesh_grid geo grid_points).length = grid_points
    ∧ (∀ row ∈ mesh_grid geo grid_points, row.length = grid_points)
    ∧ coordAt (mesh_xs geo grid_points) 0 = -geo.radius
    ∧ (2 ≤ grid_points →
        coordAt (mesh_xs geo grid_points) (grid_points - 1) = geo.radius)
    ∧ (∀ j, j + 1 < grid_points →
        coordAt (mesh_xs geo grid_points) (j + 1)
          - coordAt (mesh_xs geo grid_points) j
          = 2 * geo.radius / ((grid_points - 1 : ℕ) : ℚ))
    ∧ (grid_points = 1 → mesh_xs geo grid_points = [-geo.radius]) := by
  refine ⟨linspace_length _ _ _, linspace_length _ _ _, ?_, ?_, ?_, ?_, ?_, ?_⟩
  · rw [mesh_grid, List.length_map, mesh_ys, linspace_length]
  · intro row hrow
    rw [mesh_grid] at hrow
    obtain ⟨y, _, rfl⟩ := List.mem_map.mp hrow
    rw [List.length_map, mesh_xs, linspace_length]
  · rw [coordAt, mesh_xs, linspace_getD _ _ _ 0 h1]
    norm_num
  · intro h2
    rw [coordAt, mesh_xs,
      linspace_getD _ _ _ (grid_points - 1) (by omega)]
    have hm : ((grid_points - 1 : ℕ) : ℚ) ≠ 0 := by
      have hz : grid_points - 1 ≠ 0 := by omega
      exact_mod_cast hz
    rw [mul_div_assoc, div_self hm, mul_one]
    ring
  · intro j hj
    rw [coordAt, coordAt, mesh_xs, linspace_getD _ _ _ (j + 1) hj,
      linspace_getD _ _ _ j (by omega)]
    push_cast [Nat.cast_sub h1]
    ring
  · intro he
    subst he
    norm_num [mesh_xs, linspace, List.range_succ]

/-- Witness for C6's amended statement: at radius 1 and resolution 3 the
first mesh x value is `-radius`. -/
theorem mesh_build_spec_witness :
    coordAt (mesh_xs geo₀ 3) 0 = -geo₀.radius :=
  (mesh_build_spec geo₀ 3 (by norm_num)).2.2.2.2.1

/-- C7: `interpolate` is deterministic and stateless — the result is a
pure function of its arguments, and two successful runs on identical
inputs agree cell-for-cell, including on which cells are undefined. -/
theorem interpolate_deterministic (samples : List SamplePoint)
    (geo : TankGeometry) (grid_points : ℕ) (f : ℚ → ℚ → Option ℚ) :
    interpolate samples geo grid_points f = interpolate samples geo grid_points f
    ∧ ∀ g g' : HeightGrid,
        interpolate samples geo grid_points f = Except.ok g →
        interpolate samples geo grid_points f = Except.ok g' →
        ∀ i j, cellAt g i j = cellAt g' i j := by
  refine ⟨rfl, fun g g' hg hg' i j => ?_⟩
  rw [hg] at hg'
  injection hg' with h
  rw [h]

/-- Witness for C7: two identical successful runs on the fixture inputs
agree on cell `(0, 1)`. -/
theorem interpolate_deterministic_witness :
    cellAt g₀ 0 1 = cellAt g₀ 0 1 :=
  (interpolate_deterministic samples₀ geo₀ 3 f₀).2 g₀ g₀
    interpolate_samples₀_eval interpolate_samples₀_eval 0 1

/-- C8: the composed scene uses exactly the fixed 4-stop color ramp
(dark blue, sky blue, yellow, red at relative heights 0, 0.2, 0.8, 1),
sets the x and y axis ranges to the reversed `[radius, -radius]`, and the
z axis range to `[z_bot, z_top]`. -/
theorem compose_scene_render_params (grid_z : HeightGrid)
    (samples : List SamplePoint) (geo : TankGeometry) (show_labels : Bool)
    (tank_name : String) (elev azim : ℚ) :
    (composeScene grid_z samples geo show_labels tank_name elev azim).colorscale
        = [(0, "darkblue"), (1/5, "deepskyblue"), (4/5, "yellow"), (1, "red")]
    ∧ (composeScene grid_z samples geo show_labels tank_name elev azim).xaxis_range
        = (geo.radius, -geo.radius)
    ∧ (composeScene grid_z samples geo show_labels tank_name elev azim).yaxis_range
        = (geo.radius, -geo.radius)
    ∧ (composeScene grid_z samples geo show_labels tank_name elev azim).zaxis_range
        = (geo.z_bot, geo.z_top) :=
  ⟨rfl, rfl, rfl, rfl⟩

/-- C10: the camera eye is the constant `(1.4, -1.4, 0.7)`, and two runs
differing only in the user-supplied `elev` and `azim` produce identical
scene descriptions — those inputs do not influence the output at all. -/
theorem scene_independent_of_elev_azim (grid_z : HeightGrid)
    (samples : List SamplePoint) (geo : TankGeometry) (show_labels : Bool)
    (tank_name : String) (elev azim elev' azim' : ℚ) :
    composeScene grid_z samples geo show_labels tank_name elev azim
        = composeScene grid_z samples geo show_labels tank_name elev' azim'
    ∧ (composeScene grid_z samples geo show_labels tank_name elev azim).camera_eye
        = (7/5, -7/5, 7/10) :=
  ⟨rfl, rfl⟩
